import Mathlib

/-!
# GLGizmoCut3D: a shallow embedding of the cut gizmo's state machine

Embedding of `src/slic3r/GUI/Gizmos/GLGizmoCut.cpp`.

Conventions of the embedding:

* `float` and `double` values are rationals; `Vec3d`, `Vec2d` and `Transform3d` are records of
  rationals.  A comparison of Euclidean norms (`a.norm() < b.norm()`, `v.norm() < 3.0`) is decided
  on the squares, which is the same comparison for non-negative norms.  Where the value of a norm
  or of a normalised vector is itself used, Eigen's `norm()` / `normalized()` are functions supplied
  by the environment `Env` (square roots are not rational).
* Everything the gizmo only reads from its host (camera ray under the mouse, the object clipper,
  the selection's bounding boxes, instance offset, SLA shift) is a field of `Env`.
* Every call by which the gizmo acts on its host (undo/redo snapshots, `reset_all_gizmos`,
  `Plater::cut`, `apply_cut_connectors`, `ObjectClipper::set_range_and_pos`) is appended to the
  trace `calls` of the state.  Rendering requests (`set_as_dirty`, `set_dirty`,
  `request_extra_frame`), the cached GL models and the picking raycasters are not modelled.
* `cut_connectors` is the connector list of the selected model object: the object that
  `m_c->selection_info()->model_object()` returns and that `perform_cut` reads through
  `plater->model().objects[object_idx]`.
* `std::vector` is `List`; `v[i] = x` is `List.set`, and a read `v[i]` of a `vector<bool>` is
  `List.getD v i false`.
* The conflict detection and the rotation of the plane read meshes, bounding boxes and the numeric
  library (`acos`, `PI`, `is_approx`, `rotation_transform`) through `ConnectorEnv` and
  `RotationEnv`; the members only they use (`m_info_stats`, `m_angle`, `m_start_dragging_m`, the
  snap radii) are passed in the records `InfoStats` and `RotationMembers`.  `on_is_activable` reads
  its host through `ActivationView`.
-/

namespace GLGizmoCut

/-! ## Vectors and transforms -/

/-- Eigen `Vec2d`. -/
structure Vec2d where
  x : ℚ
  y : ℚ
deriving DecidableEq

/-- Eigen `Vec3d`. -/
structure Vec3d where
  x : ℚ
  y : ℚ
  z : ℚ
deriving DecidableEq

namespace Vec2d

/-- Componentwise difference. -/
def sub (a b : Vec2d) : Vec2d := ⟨a.x - b.x, a.y - b.y⟩

/-- Squared Euclidean norm. -/
def squaredNorm (a : Vec2d) : ℚ := a.x * a.x + a.y * a.y

end Vec2d

namespace Vec3d

/-- `Vec3d::Zero()`. -/
def Zero : Vec3d := ⟨0, 0, 0⟩

/-- `Vec3d::UnitZ()`. -/
def UnitZ : Vec3d := ⟨0, 0, 1⟩

/-- Componentwise sum. -/
def add (a b : Vec3d) : Vec3d := ⟨a.x + b.x, a.y + b.y, a.z + b.z⟩

/-- Componentwise difference. -/
def sub (a b : Vec3d) : Vec3d := ⟨a.x - b.x, a.y - b.y, a.z - b.z⟩

/-- Unary minus. -/
def neg (a : Vec3d) : Vec3d := ⟨-a.x, -a.y, -a.z⟩

/-- Product with a scalar. -/
def smul (k : ℚ) (a : Vec3d) : Vec3d := ⟨k * a.x, k * a.y, k * a.z⟩

/-- Scalar product. -/
def dot (a b : Vec3d) : ℚ := a.x * b.x + a.y * b.y + a.z * b.z

/-- Vector product. -/
def cross (a b : Vec3d) : Vec3d :=
  ⟨a.y * b.z - a.z * b.y, a.z * b.x - a.x * b.z, a.x * b.y - a.y * b.x⟩

/-- Squared Euclidean norm. -/
def squaredNorm (a : Vec3d) : ℚ := dot a a

end Vec3d

/-- Eigen `Matrix3d`, by rows. -/
structure Matrix3d where
  r0 : Vec3d
  r1 : Vec3d
  r2 : Vec3d
deriving DecidableEq

namespace Matrix3d

/-- The identity matrix. -/
def Identity : Matrix3d := ⟨⟨1, 0, 0⟩, ⟨0, 1, 0⟩, ⟨0, 0, 1⟩⟩

/-- Matrix times vector. -/
def mulVec (m : Matrix3d) (v : Vec3d) : Vec3d := ⟨m.r0.dot v, m.r1.dot v, m.r2.dot v⟩

/-- Column `0`, `1`, `2` of a matrix. -/
def col0 (m : Matrix3d) : Vec3d := ⟨m.r0.x, m.r1.x, m.r2.x⟩

/-- Second column. -/
def col1 (m : Matrix3d) : Vec3d := ⟨m.r0.y, m.r1.y, m.r2.y⟩

/-- Third column. -/
def col2 (m : Matrix3d) : Vec3d := ⟨m.r0.z, m.r1.z, m.r2.z⟩

/-- Matrix product. -/
def mul (a b : Matrix3d) : Matrix3d :=
  ⟨⟨a.r0.dot b.col0, a.r0.dot b.col1, a.r0.dot b.col2⟩,
   ⟨a.r1.dot b.col0, a.r1.dot b.col1, a.r1.dot b.col2⟩,
   ⟨a.r2.dot b.col0, a.r2.dot b.col1, a.r2.dot b.col2⟩⟩

end Matrix3d

/-- Eigen `Transform3d` (affine): `v ↦ linear * v + translation`. -/
structure Transform3d where
  linear : Matrix3d
  translation : Vec3d
deriving DecidableEq

namespace Transform3d

/-- `Transform3d::Identity()`. -/
def Identity : Transform3d := ⟨Matrix3d.Identity, Vec3d.Zero⟩

/-- `Transform3d * Vec3d`: the affine map applied to a point. -/
def apply (t : Transform3d) (v : Vec3d) : Vec3d := (t.linear.mulVec v).add t.translation

/-- `Transform3d * Transform3d`: composition, `(a * b) v = a (b v)`. -/
def mul (a b : Transform3d) : Transform3d :=
  ⟨a.linear.mul b.linear, (a.linear.mulVec b.translation).add a.translation⟩

end Transform3d

/-- Geometry helper `translation_transform(v)`. -/
def translation_transform (v : Vec3d) : Transform3d := ⟨Matrix3d.Identity, v⟩

/-- Library `std::clamp(v, lo, hi)`. -/
def clamp (v lo hi : ℚ) : ℚ := if v < lo then lo else if hi < v then hi else v

/-- Type `BoundingBoxf3`: the two corners. -/
structure BoundingBoxf3 where
  min : Vec3d
  max : Vec3d
deriving DecidableEq

/-! ## Enumerations and connectors -/

/-- Enumeration `CutConnectorType`. -/
inductive CutConnectorType where
  | Plug
  | Dowel
  | Undef
deriving DecidableEq

/-- Enumeration `CutConnectorStyle`. -/
inductive CutConnectorStyle where
  | Prizm
  | Frustum
  | Undef
deriving DecidableEq

/-- Enumeration `CutConnectorShape`. -/
inductive CutConnectorShape where
  | Triangle
  | Square
  | Hexagon
  | Circle
  | Undef
deriving DecidableEq

/-- Enumeration `CutConnectorMode`. -/
inductive CutConnectorMode where
  | Auto
  | Manual
deriving DecidableEq

/-- Record `CutConnectorAttributes`. -/
structure CutConnectorAttributes where
  type : CutConnectorType
  style : CutConnectorStyle
  shape : CutConnectorShape
deriving DecidableEq

/-- Record `CutConnector`, fields in the order of the constructor used by `add_connector`. -/
structure CutConnector where
  pos : Vec3d
  rotation_m : Transform3d
  radius : ℚ
  height : ℚ
  radius_tolerance : ℚ
  height_tolerance : ℚ
  attribs : CutConnectorAttributes
deriving DecidableEq

/-- Enumeration `SLAGizmoEventType`: the enumerators this file tests, followed by the remaining
ones, which no branch of the gizmo distinguishes. -/
inductive SLAGizmoEventType where
  | LeftDown
  | LeftUp
  | RightDown
  | Dragging
  | Delete
  | SelectAll
  | ShiftUp
  | AltUp
  | Moving
  | ApplyChanges
  | DiscardChanges
  | AutomaticGeneration
  | ManualEditing
  | MouseWheelUp
  | MouseWheelDown
  | ResetClippingPlane
deriving DecidableEq

/-- State of `GLSelectionRectangle`: `Off` when no rectangle is being dragged. -/
inductive EState where
  | Off
  | Select
  | Deselect
deriving DecidableEq

/-- Enumeration `ModelObjectCutAttribute`, the flags of `Plater::cut`. -/
inductive ModelObjectCutAttribute where
  | KeepUpper
  | KeepLower
  | FlipUpper
  | FlipLower
  | PlaceOnCutUpper
  | PlaceOnCutLower
  | CreateDowels
deriving DecidableEq

/-- A set of cut attributes (`enum_bitmask<ModelObjectCutAttribute>`), as the list of its flags. -/
abbrev ModelObjectCutAttributes := List ModelObjectCutAttribute

/-- Helper `only_if(condition, flag)`: the flag when the condition holds, the empty set otherwise. -/
def only_if (condition : Bool) (flag : ModelObjectCutAttribute) : ModelObjectCutAttributes :=
  if condition then [flag] else []

/-- Calls by which the gizmo acts on its host. -/
inductive HostCall where
  | take_snapshot (name : String)
  | reset_all_gizmos
  | apply_cut_connectors (name : String)
  | cut (object_idx instance_idx : Int) (cut_matrix : Transform3d)
      (attributes : ModelObjectCutAttributes)
  | set_range_and_pos (normal : Vec3d) (offset dist : ℚ)
deriving DecidableEq

/-! ## Environment and state -/

/-- What `m_c->object_clipper()` answers when it exists. -/
structure ObjectClipper where
  has_valid_contour : Bool
  clp_normal : Vec3d
  clp_offset : ℚ
  is_projection_inside_cut : Vec3d → Bool

/-- Read-only view of the host during one call. -/
structure Env where
  /-- Ray `(point, direction)` of `MeshRaycaster::line_from_mouse_pos` for the current camera. -/
  line_from_mouse_pos : Vec2d → Vec3d × Vec3d
  /-- Pointer `m_c->object_clipper()`, `none` when null. -/
  object_clipper : Option ObjectClipper
  /-- Offset of the active instance of the selected model object. -/
  instance_offset : Vec3d
  /-- Value of `m_c->selection_info()->get_sla_shift()`. -/
  sla_shift : ℚ
  /-- Result of `bounding_box().center()`. -/
  bounding_box_center : Vec3d
  /-- Result of `transformed_bounding_box(center)` for a given `m_rotation_m`. -/
  transformed_bounding_box : Transform3d → Vec3d → BoundingBoxf3
  /-- Camera `get_dir_forward()`. -/
  camera_dir_forward : Vec3d
  /-- Eigen `norm()`. -/
  norm : Vec3d → ℚ
  /-- Eigen `normalized()`. -/
  normalized : Vec3d → Vec3d
  /-- Rotation matrix `Quaterniond().setFromTwoVectors(a, b).toRotationMatrix()`. -/
  setFromTwoVectors : Vec3d → Vec3d → Matrix3d
  /-- Indices returned by `m_selection_rectangle.contains(points)`. -/
  rectangle_contains : List Vec3d → List Nat

/-- Members of `GLGizmoCut3D` (and of its base `GLGizmoBase`) that the modelled functions use,
with the connector list of the selected model object and the trace of host calls. -/
structure GLGizmoCut3D where
  m_dragging : Bool
  m_hover_id : Int
  m_connectors_group_id : Int
  m_connector_mode : CutConnectorMode
  m_connectors_editing : Bool
  m_keep_upper : Bool
  m_keep_lower : Bool
  m_place_on_cut_upper : Bool
  m_place_on_cut_lower : Bool
  m_rotate_upper : Bool
  m_rotate_lower : Bool
  m_has_invalid_connector : Bool
  m_selected : List Bool
  m_selected_count : Int
  m_connector_depth_ratio : ℚ
  m_connector_depth_ratio_tolerance : ℚ
  m_connector_size : ℚ
  m_connector_size_tolerance : ℚ
  m_connector_type : CutConnectorType
  m_connector_style : CutConnectorStyle
  m_connector_shape_id : CutConnectorShape
  m_rotation_m : Transform3d
  m_plane_center : Vec3d
  m_bb_center : Vec3d
  m_center_offset : Vec3d
  m_cut_normal : Vec3d
  m_clp_normal : Vec3d
  m_radius : ℚ
  m_line_beg : Vec3d
  m_line_end : Vec3d
  m_ldown_mouse_position : Vec2d
  m_selection_rectangle : EState
  cut_connectors : List CutConnector
  calls : List HostCall
deriving DecidableEq

/-- The `Selection` argument of `perform_cut`, with what `perform_cut` reads through it. -/
structure Selection where
  instance_idx : Int
  object_idx : Int
  /-- Whether `plater->model().objects[object_idx]` is a non-null pointer. -/
  object_present : Bool
  /-- Offset of `mo->instances[instance_idx]`. -/
  instance_offset : Vec3d
  /-- Value of `get_first_volume()->get_sla_shift_z()`. -/
  sla_shift_z : ℚ
deriving DecidableEq

/-! ## Selection of connectors -/

/-- Library `std::fill(v.begin(), v.end(), b)` on a `vector<bool>`. -/
def fill (v : List Bool) (b : Bool) : List Bool := v.map (fun _ => b)

/-- Source `GLGizmoCut3D::validate_connector_settings`: seven independent statements, each
testing and replacing one member. -/
def validate_connector_settings (g : GLGizmoCut3D) : GLGizmoCut3D :=
  { g with
    m_connector_depth_ratio :=
      if g.m_connector_depth_ratio < 0 then 3 else g.m_connector_depth_ratio,
    m_connector_depth_ratio_tolerance :=
      if g.m_connector_depth_ratio_tolerance < 0 then 1 / 10
      else g.m_connector_depth_ratio_tolerance,
    m_connector_size := if g.m_connector_size < 0 then 5 / 2 else g.m_connector_size,
    m_connector_size_tolerance :=
      if g.m_connector_size_tolerance < 0 then 0 else g.m_connector_size_tolerance,
    m_connector_type :=
      if g.m_connector_type = CutConnectorType.Undef then CutConnectorType.Plug
      else g.m_connector_type,
    m_connector_style :=
      if g.m_connector_style = CutConnectorStyle.Undef then CutConnectorStyle.Prizm
      else g.m_connector_style,
    m_connector_shape_id :=
      if g.m_connector_shape_id = CutConnectorShape.Undef then CutConnectorShape.Circle
      else g.m_connector_shape_id }

/-- Source `GLGizmoCut3D::unselect_all_connectors`. -/
def unselect_all_connectors (g : GLGizmoCut3D) : GLGizmoCut3D :=
  validate_connector_settings { g with m_selected := fill g.m_selected false, m_selected_count := 0 }

/-- Source `GLGizmoCut3D::select_all_connectors`. -/
def select_all_connectors (g : GLGizmoCut3D) : GLGizmoCut3D :=
  { g with m_selected := fill g.m_selected true, m_selected_count := (g.m_selected.length : Int) }

/-- Source `GLGizmoCut3D::clear_selection`. -/
def clear_selection (g : GLGizmoCut3D) : GLGizmoCut3D :=
  { g with m_selected := [], m_selected_count := 0 }

/-- Source `GLGizmoCut3D::select_connector`. -/
def select_connector (g : GLGizmoCut3D) (idx : Int) (select : Bool) : GLGizmoCut3D :=
  { g with
    m_selected := g.m_selected.set idx.toNat select,
    m_selected_count := if select then g.m_selected_count + 1 else g.m_selected_count - 1 }

/-- Source `GLGizmoCut3D::is_selection_changed`. -/
def is_selection_changed (g : GLGizmoCut3D) (alt_down shift_down : Bool) : Bool × GLGizmoCut3D :=
  if g.m_hover_id ≥ g.m_connectors_group_id then
    if alt_down then
      (true, select_connector g (g.m_hover_id - g.m_connectors_group_id) false)
    else
      let g1 := if !shift_down then unselect_all_connectors g else g
      (true, select_connector g1 (g1.m_hover_id - g1.m_connectors_group_id) true)
  else
    (false, g)

/-! ## The cut plane -/

/-- Source `GLGizmoCut3D::rotate_vec3d_around_plane_center`. -/
def rotate_vec3d_around_plane_center (g : GLGizmoCut3D) (vec : Vec3d) : Vec3d :=
  (((translation_transform g.m_plane_center).mul g.m_rotation_m).mul
    (translation_transform g.m_plane_center.neg)).apply vec

/-- Source `GLGizmoCut3D::put_connectors_on_cut_plane`. -/
def put_connectors_on_cut_plane (env : Env) (g : GLGizmoCut3D) (cp_normal : Vec3d)
    (cp_offset : ℚ) : GLGizmoCut3D :=
  if g.cut_connectors.isEmpty then g
  else
    { g with cut_connectors := g.cut_connectors.map (fun connector =>
        let pos := connector.pos.add env.instance_offset
        let pos := { pos with z := pos.z + env.sla_shift }
        let distance := -(cp_normal.dot pos) + cp_offset
        { connector with pos := connector.pos.add (cp_normal.smul distance) }) }

/-- Source `GLGizmoCut3D::is_looking_forward`. -/
def is_looking_forward (env : Env) (g : GLGizmoCut3D) : Bool :=
  decide (env.camera_dir_forward.dot g.m_cut_normal < 5 / 100)

/-- Second half of `GLGizmoCut3D::update_clipper`, from "calculate normal and offset for
clipping plane" on. -/
def update_clipper_plane (env : Env) (g : GLGizmoCut3D) (beg normal : Vec3d) : GLGizmoCut3D :=
  let dist := env.norm (g.m_plane_center.sub beg)
  let dist := clamp dist (1 / 10000) (env.norm normal)
  let normal := env.normalized normal
  let g := { g with m_clp_normal := normal }
  let offset := normal.dot beg + dist
  let g := { g with calls := g.calls ++ [HostCall.set_range_and_pos normal offset dist] }
  put_connectors_on_cut_plane env g normal offset

/-- Source `GLGizmoCut3D::update_clipper`. -/
def update_clipper (env : Env) (g : GLGizmoCut3D) : GLGizmoCut3D :=
  let cz := env.bounding_box_center.z
  let beg := rotate_vec3d_around_plane_center g { g.m_plane_center with z := cz - g.m_radius }
  let «end» := rotate_vec3d_around_plane_center g { g.m_plane_center with z := cz + g.m_radius }
  let normal := «end».sub beg
  let g := { g with m_cut_normal := env.normalized normal }
  if !is_looking_forward env g then
    let beg := rotate_vec3d_around_plane_center g { g.m_plane_center with z := cz + g.m_radius }
    let «end» := rotate_vec3d_around_plane_center g { g.m_plane_center with z := cz - g.m_radius }
    let normal := «end».sub beg
    if normal = Vec3d.Zero then g
    else update_clipper_plane env g beg normal
  else
    update_clipper_plane env g beg normal

/-- Source `GLGizmoCut3D::set_center_pos`. -/
def set_center_pos (env : Env) (g : GLGizmoCut3D) (center_pos : Vec3d) (force : Bool) :
    GLGizmoCut3D :=
  let can_set_center_pos :=
    if force then true
    else
      let tbb := env.transformed_bounding_box g.m_rotation_m center_pos
      if tbb.max.z > -1 ∧ tbb.min.z < 1 then true
      else
        let old_dist2 := (g.m_bb_center.sub g.m_plane_center).squaredNorm
        let new_dist2 := (g.m_bb_center.sub center_pos).squaredNorm
        decide (new_dist2 < old_dist2)
  if can_set_center_pos then
    { g with m_plane_center := center_pos, m_center_offset := center_pos.sub g.m_bb_center }
  else g

/-- Source `GLGizmoCut3D::set_center`. -/
def set_center (env : Env) (g : GLGizmoCut3D) (center : Vec3d) : GLGizmoCut3D :=
  update_clipper env (set_center_pos env g center false)

/-- Source `GLGizmoCut3D::reset_cut_plane`. -/
def reset_cut_plane (env : Env) (g : GLGizmoCut3D) : GLGizmoCut3D :=
  let g := set_center env g env.bounding_box_center
  let g := { g with m_rotation_m := Transform3d.Identity }
  update_clipper env g

/-- The condition `is_cut_plane_init` of `render_cut_plane_input_window`, which disables the
"Reset cutting plane" button; `isApprox` against the identity is modelled by equality. -/
def is_cut_plane_init (env : Env) (g : GLGizmoCut3D) : Bool :=
  decide (g.m_rotation_m = Transform3d.Identity) && decide (env.bounding_box_center = g.m_plane_center)

/-! ## Cut by line -/

/-- Source `GLGizmoCut3D::cut_line_processing`. -/
def cut_line_processing (g : GLGizmoCut3D) : Bool := decide (g.m_line_beg ≠ Vec3d.Zero)

/-- Source `GLGizmoCut3D::discard_cut_line_processing`. -/
def discard_cut_line_processing (g : GLGizmoCut3D) : GLGizmoCut3D :=
  { g with m_line_beg := Vec3d.Zero, m_line_end := Vec3d.Zero }

/-- The point `pt` and the unit direction `dir` that `process_cut_line` computes from the mouse
position: the camera ray, its direction normalised, the point moved along it. -/
def cut_line_ray (env : Env) (mouse_position : Vec2d) : Vec3d × Vec3d :=
  let ray := env.line_from_mouse_pos mouse_position
  let dir := env.normalized ray.2
  (ray.1.add dir, dir)

/-- Source `GLGizmoCut3D::process_cut_line`. -/
def process_cut_line (env : Env) (g : GLGizmoCut3D) (action : SLAGizmoEventType)
    (mouse_position : Vec2d) : Bool × GLGizmoCut3D :=
  let pt := (cut_line_ray env mouse_position).1
  let dir := (cut_line_ray env mouse_position).2
  if action = SLAGizmoEventType.LeftDown ∧ cut_line_processing g = false then
    (true, { g with m_line_beg := pt, m_line_end := pt })
  else if cut_line_processing g then
    let g := { g with m_line_end := pt }
    if action = SLAGizmoEventType.LeftDown ∨ action = SLAGizmoEventType.LeftUp then
      let line_dir := g.m_line_end.sub g.m_line_beg
      if line_dir.squaredNorm < 3 * 3 then (true, g)
      else
        let g := { g with calls := g.calls ++ [HostCall.take_snapshot "Cut by line"] }
        let cross_dir := env.normalized (line_dir.cross dir)
        let m : Transform3d :=
          { Transform3d.Identity with linear := env.setFromTwoVectors Vec3d.UnitZ cross_dir }
        let g := { g with m_rotation_m := m }
        let g := set_center env g
          (g.m_plane_center.add (cross_dir.smul (cross_dir.dot (pt.sub g.m_plane_center))))
        (true, discard_cut_line_processing g)
    else (true, g)
  else (false, g)

/-! ## Connectors -/

/-- Source `GLGizmoCut3D::unproject_on_cut_plane`: `some (pos, pos_world)` when it returns true.
The source dereferences the object clipper without a null check; without a clipper the model
reports no hit. -/
def unproject_on_cut_plane (env : Env) (mouse_position : Vec2d) : Option (Vec3d × Vec3d) :=
  match env.object_clipper with
  | none => none
  | some oc =>
    let point := (env.line_from_mouse_pos mouse_position).1
    let direction := (env.line_from_mouse_pos mouse_position).2
    let normal := oc.clp_normal.neg
    let den := normal.dot direction
    if den ≠ 0 then
      let t := (-oc.clp_offset - normal.dot point) / den
      let hit := point.add (direction.smul t)
      if oc.is_projection_inside_cut hit = false then none
      else
        let hit_d := hit.sub env.instance_offset
        let hit_d := { hit_d with z := hit_d.z - env.sla_shift }
        some (hit_d, hit)
    else none

/-- Source `GLGizmoCut3D::add_connector`; `connectors` is `g.cut_connectors`. -/
def add_connector (env : Env) (g : GLGizmoCut3D) (mouse_position : Vec2d) : Bool × GLGizmoCut3D :=
  if g.m_connectors_editing = false then (false, g)
  else
    match unproject_on_cut_plane env mouse_position with
    | some (pos, _) =>
      let g := { g with calls := g.calls ++ [HostCall.take_snapshot "Add connector"] }
      let g := unselect_all_connectors g
      let g := { g with cut_connectors := g.cut_connectors ++
        [CutConnector.mk pos g.m_rotation_m
          (g.m_connector_size * (1 / 2)) g.m_connector_depth_ratio
          g.m_connector_size_tolerance g.m_connector_depth_ratio_tolerance
          ⟨g.m_connector_type, g.m_connector_style, g.m_connector_shape_id⟩] }
      (true, { g with m_selected := g.m_selected ++ [true], m_selected_count := 1 })
    | none => (false, g)

/-- The loop of `delete_selected_connectors` that erases the selected connectors,
`for (i = n - 1; i >= 0; i--) if (m_selected[i]) connectors.erase(connectors.begin() + i)`;
the first argument is `i + 1`. -/
def erase_selected (selected : List Bool) : Nat → List CutConnector → List CutConnector
  | 0, connectors => connectors
  | i + 1, connectors =>
    erase_selected selected i (if selected.getD i false then connectors.eraseIdx i else connectors)

/-- Source `GLGizmoCut3D::delete_selected_connectors`; `connectors` is `g.cut_connectors`. -/
def delete_selected_connectors (g : GLGizmoCut3D) : Bool × GLGizmoCut3D :=
  if g.cut_connectors.isEmpty then (false, g)
  else
    let g := { g with calls := g.calls ++ [HostCall.take_snapshot "Delete connector"] }
    let g := { g with
      cut_connectors := erase_selected g.m_selected g.cut_connectors.length g.cut_connectors }
    (true, { g with
      m_selected := g.m_selected.filter (fun selected => !selected), m_selected_count := 0 })

/-- Source `GLGizmoCut3D::process_selection_rectangle`; `connectors` is `g.cut_connectors`. -/
def process_selection_rectangle (env : Env) (g : GLGizmoCut3D) : GLGizmoCut3D :=
  let rectangle_status := g.m_selection_rectangle
  let offset := env.instance_offset.add (Vec3d.UnitZ.smul env.sla_shift)
  let points := g.cut_connectors.map (fun connector => connector.pos.add offset)
  let points_idxs := env.rectangle_contains points
  let g := { g with m_selection_rectangle := EState.Off }
  points_idxs.foldl
    (fun g idx => select_connector g (idx : Int) (decide (rectangle_status = EState.Select))) g

/-- Library `GLSelectionRectangle::start_dragging`, as far as the state of the rectangle goes. -/
def start_dragging (g : GLGizmoCut3D) (state : EState) : GLGizmoCut3D :=
  if g.m_selection_rectangle ≠ EState.Off ∨ state = EState.Off then g
  else { g with m_selection_rectangle := state }

/-- Source `GLGizmoCut3D::gizmo_event`. -/
def gizmo_event (env : Env) (g : GLGizmoCut3D) (action : SLAGizmoEventType)
    (mouse_position : Vec2d) (shift_down alt_down _control_down : Bool) : Bool × GLGizmoCut3D :=
  if g.m_dragging ∨ g.m_connector_mode = CutConnectorMode.Auto then (false, g)
  else if g.m_hover_id < 0 ∧ shift_down ∧ g.m_connectors_editing = false ∧
      (action = SLAGizmoEventType.LeftDown ∨ action = SLAGizmoEventType.LeftUp ∨
        action = SLAGizmoEventType.Moving) then
    process_cut_line env g action mouse_position
  else if g.m_keep_upper = false ∨ g.m_keep_lower = false then (false, g)
  else if g.m_connectors_editing = false then (false, g)
  else if action = SLAGizmoEventType.LeftDown then
    if shift_down ∨ alt_down then
      if g.m_hover_id = -1 then
        (true, start_dragging g (if shift_down then EState.Select else EState.Deselect))
      else (true, g)
    else if g.m_hover_id = -1 ∧ shift_down = false ∧ alt_down = false then
      let r := add_connector env g mouse_position
      (true, if r.1 = false then { r.2 with m_ldown_mouse_position := mouse_position } else r.2)
    else (true, g)
  else if action = SLAGizmoEventType.LeftUp ∧ g.m_selection_rectangle = EState.Off then
    let g := if (g.m_ldown_mouse_position.sub mouse_position).squaredNorm < 5 * 5
      then unselect_all_connectors g else g
    is_selection_changed g alt_down shift_down
  else if (action = SLAGizmoEventType.LeftUp ∨ action = SLAGizmoEventType.ShiftUp ∨
      action = SLAGizmoEventType.AltUp) ∧ g.m_selection_rectangle ≠ EState.Off then
    (true, process_selection_rectangle env g)
  else if action = SLAGizmoEventType.Dragging then
    if g.m_selection_rectangle ≠ EState.Off then (true, g) else (false, g)
  else if action = SLAGizmoEventType.RightDown ∧ shift_down = false then
    if g.m_hover_id < g.m_connectors_group_id then (false, g)
    else
      let g := unselect_all_connectors g
      let g := select_connector g (g.m_hover_id - g.m_connectors_group_id) true
      delete_selected_connectors g
  else if action = SLAGizmoEventType.Delete then delete_selected_connectors g
  else if action = SLAGizmoEventType.SelectAll then (true, select_all_connectors g)
  else (false, g)

/-! ## Performing the cut -/

/-- Source `GLGizmoCut3D::can_perform_cut`. -/
def can_perform_cut (env : Env) (g : GLGizmoCut3D) : Bool :=
  if g.m_has_invalid_connector ∨ (g.m_keep_upper = false ∧ g.m_keep_lower = false) ∨
      g.m_connectors_editing then false
  else
    match env.object_clipper with
    | none => false
    | some clipper => clipper.has_valid_contour

/-- The loop of `apply_connectors_in_model` over the connectors of the model object, carrying
the flag `create_dowels_as_separate_object`. -/
def apply_connectors_loop (env : Env) (g : GLGizmoCut3D) :
    List CutConnector → Bool → List CutConnector × Bool
  | [], create_dowels => ([], create_dowels)
  | connector :: rest, create_dowels =>
    let connector := { connector with rotation_m := g.m_rotation_m }
    if connector.attribs.type = CutConnectorType.Dowel then
      let connector := if connector.attribs.style = CutConnectorStyle.Prizm
        then { connector with height := connector.height * 2 } else connector
      let r := apply_connectors_loop env g rest true
      (connector :: r.1, r.2)
    else
      let shifted_center := rotate_vec3d_around_plane_center g (g.m_plane_center.add Vec3d.UnitZ)
      let norm := env.normalized (shifted_center.sub g.m_plane_center)
      let connector :=
        { connector with pos := connector.pos.add ((norm.smul (1 / 2)).smul connector.height) }
      let r := apply_connectors_loop env g rest create_dowels
      (connector :: r.1, r.2)

/-- Source `GLGizmoCut3D::apply_connectors_in_model`; the model object is the selected one and
the second component is the reference argument `create_dowels_as_separate_object`. -/
def apply_connectors_in_model (env : Env) (g : GLGizmoCut3D)
    (create_dowels_as_separate_object : Bool) : GLGizmoCut3D × Bool :=
  if g.m_connector_mode = CutConnectorMode.Manual then
    let g := clear_selection g
    let r := apply_connectors_loop env g g.cut_connectors create_dowels_as_separate_object
    ({ g with cut_connectors := r.1,
              calls := g.calls ++ [HostCall.apply_cut_connectors "Connector"] }, r.2)
  else (g, create_dowels_as_separate_object)

/-- Source `GLGizmoCut3D::perform_cut`. -/
def perform_cut (env : Env) (g : GLGizmoCut3D) (selection : Selection) : GLGizmoCut3D :=
  if can_perform_cut env g = false then g
  else if ¬ (selection.instance_idx ≥ 0 ∧ selection.object_idx ≥ 0) then g
  else if selection.object_present = false then g
  else
    let g := { g with calls := g.calls ++ [HostCall.reset_all_gizmos] }
    let cut_center_offset := g.m_plane_center.sub selection.instance_offset
    let cut_center_offset :=
      { cut_center_offset with z := cut_center_offset.z - selection.sla_shift_z }
    let g := { g with calls := g.calls ++ [HostCall.take_snapshot "Cut by Plane"] }
    let has_connectors := !g.cut_connectors.isEmpty
    let r := apply_connectors_in_model env g false
    let g := r.1
    let create_dowels_as_separate_object := r.2
    { g with calls := g.calls ++
      [HostCall.cut selection.object_idx selection.instance_idx
        ((translation_transform cut_center_offset).mul g.m_rotation_m)
        (only_if (if has_connectors then true else g.m_keep_upper)
            ModelObjectCutAttribute.KeepUpper ++
          only_if (if has_connectors then true else g.m_keep_lower)
            ModelObjectCutAttribute.KeepLower ++
          only_if g.m_place_on_cut_upper ModelObjectCutAttribute.PlaceOnCutUpper ++
          only_if g.m_place_on_cut_lower ModelObjectCutAttribute.PlaceOnCutLower ++
          only_if g.m_rotate_upper ModelObjectCutAttribute.FlipUpper ++
          only_if g.m_rotate_lower ModelObjectCutAttribute.FlipLower ++
          only_if create_dowels_as_separate_object ModelObjectCutAttribute.CreateDowels)] }

/-! ## Named parts of `process_cut_line`, `set_center_pos` and `put_connectors_on_cut_plane` -/

/-- The flag `can_set_center_pos` of a non-forced `set_center_pos(center_pos)`: whether the new
centre is accepted. -/
def can_set_center_pos (env : Env) (g : GLGizmoCut3D) (center_pos : Vec3d) : Bool :=
  let tbb := env.transformed_bounding_box g.m_rotation_m center_pos
  if tbb.max.z > -1 ∧ tbb.min.z < 1 then true
  else
    decide ((g.m_bb_center.sub center_pos).squaredNorm
      < (g.m_bb_center.sub g.m_plane_center).squaredNorm)

/-- What `on_is_activable` reads of a `ModelVolume`. -/
structure ModelVolume where
  is_cut_connector : Bool
  is_model_part : Bool
deriving DecidableEq

/-- What `on_is_activable` reads of a `ModelObject`. -/
structure ModelObject where
  is_cut : Bool
  volumes : List ModelVolume
deriving DecidableEq

/-- What `on_is_activable` reads of its host: the selection, the canvas and the model object
`plater->model().objects[object_idx]`, which is dereferenced only when `object_idx >= 0`. -/
structure ActivationView where
  object_idx : Int
  is_wipe_tower : Bool
  is_single_full_instance : Bool
  is_layers_editing_enabled : Bool
  mo : ModelObject
deriving DecidableEq

/-- The loop of `on_is_activable` over `mo->volumes`, carrying `connectors_cnt` and
`solid_connector_cnt`; it stops as soon as `connectors_cnt > 1`. -/
def count_connector_volumes : List ModelVolume → Int → Int → Int × Int
  | [], connectors_cnt, solid_connector_cnt => (connectors_cnt, solid_connector_cnt)
  | volume :: rest, connectors_cnt, solid_connector_cnt =>
    let connectors_cnt2 := if volume.is_cut_connector then connectors_cnt + 1 else connectors_cnt
    let solid_connector_cnt2 :=
      if volume.is_cut_connector ∧ volume.is_model_part then solid_connector_cnt + 1
      else solid_connector_cnt
    if connectors_cnt2 > 1 then (connectors_cnt2, solid_connector_cnt2)
    else count_connector_volumes rest connectors_cnt2 solid_connector_cnt2

/-- Source `GLGizmoCut3D::on_is_activable`. -/
def on_is_activable (v : ActivationView) : Bool :=
  if v.object_idx < 0 ∨ v.is_wipe_tower then false
  else
    let is_dowel_object :=
      if v.mo.is_cut then
        decide ((count_connector_volumes v.mo.volumes 0 0).1 = 1
          ∧ (count_connector_volumes v.mo.volumes 0 0).2 = 1)
      else false
    v.is_single_full_instance && !is_dowel_object && !v.is_layers_editing_enabled

/-- A dowel object in the words of the specification: a cut object whose volume list contains
exactly one cut-connector volume, that volume being a model part. -/
def spec_is_dowel_object (mo : ModelObject) : Bool :=
  mo.is_cut &&
    match mo.volumes.filter (fun volume => volume.is_cut_connector) with
    | [volume] => volume.is_model_part
    | _ => false

/-! ## Conflicts of connectors -/

/-- Rodrigues' formula `I + K + K² / (1 + a·b)` with `K` the cross-product matrix of `a × b`:
the rotation taking the unit vector `a` to the unit vector `b` when they are not opposite. -/
def example_rotation (a b : Vec3d) : Matrix3d :=
  let v := a.cross b
  let k := 1 / (1 + a.dot b)
  let n2 := v.squaredNorm
  ⟨⟨1 + k * (v.x * v.x - n2), -v.z + k * v.x * v.y, v.y + k * v.x * v.z⟩,
   ⟨v.z + k * v.x * v.y, 1 + k * (v.y * v.y - n2), -v.x + k * v.y * v.z⟩,
   ⟨-v.y + k * v.x * v.z, v.x + k * v.y * v.z, 1 + k * (v.z * v.z - n2)⟩⟩

/-- An environment: the camera looks down the Z axis from height 10, the clipping plane is the
plane `z = 0` and every point projects inside the cut contour.  Its `norm` and `normalized` are
exact on vectors parallel to a coordinate axis, the only ones the examples feed them. -/
def example_env : Env where
  line_from_mouse_pos := fun mouse => (⟨mouse.x, mouse.y, 10⟩, ⟨0, 0, -1⟩)
  object_clipper := some
    { has_valid_contour := true, clp_normal := ⟨0, 0, 1⟩, clp_offset := 0,
      is_projection_inside_cut := fun _ => true }
  instance_offset := ⟨1, 1, 0⟩
  sla_shift := 0
  bounding_box_center := ⟨0, 0, 5⟩
  transformed_bounding_box := fun _ center => ⟨⟨-10, -10, -5 - center.z⟩, ⟨10, 10, 15 - center.z⟩⟩
  camera_dir_forward := ⟨0, 0, -1⟩
  norm := fun v => |v.x| + |v.y| + |v.z|
  normalized := fun v =>
    if v.x = 0 ∧ v.y = 0 then ⟨0, 0, SignType.sign v.z⟩
    else if v.x = 0 ∧ v.z = 0 then ⟨0, SignType.sign v.y, 0⟩
    else if v.y = 0 ∧ v.z = 0 then ⟨SignType.sign v.x, 0, 0⟩
    else v
  setFromTwoVectors := example_rotation
  rectangle_contains := fun _ => []

/-- A plug connector at the origin. -/
def example_plug : CutConnector :=
  ⟨⟨0, 0, 0⟩, Transform3d.Identity, 1, 3, 0, 1 / 10,
    ⟨CutConnectorType.Plug, CutConnectorStyle.Prizm, CutConnectorShape.Circle⟩⟩

/-- A dowel connector. -/
def example_dowel : CutConnector :=
  ⟨⟨4, 0, 0⟩, Transform3d.Identity, 1, 3, 0, 1 / 10,
    ⟨CutConnectorType.Dowel, CutConnectorStyle.Prizm, CutConnectorShape.Hexagon⟩⟩

/-- A gizmo in connectors-editing mode with two connectors, the first one selected, nothing
hovered. -/
def example_editing : GLGizmoCut3D where
  m_dragging := false
  m_hover_id := -1
  m_connectors_group_id := 3
  m_connector_mode := CutConnectorMode.Manual
  m_connectors_editing := true
  m_keep_upper := true
  m_keep_lower := true
  m_place_on_cut_upper := true
  m_place_on_cut_lower := false
  m_rotate_upper := false
  m_rotate_lower := true
  m_has_invalid_connector := false
  m_selected := [true, false]
  m_selected_count := 1
  m_connector_depth_ratio := 3
  m_connector_depth_ratio_tolerance := 1 / 10
  m_connector_size := 5 / 2
  m_connector_size_tolerance := 0
  m_connector_type := CutConnectorType.Plug
  m_connector_style := CutConnectorStyle.Prizm
  m_connector_shape_id := CutConnectorShape.Circle
  m_rotation_m := Transform3d.Identity
  m_plane_center := ⟨0, 0, 5⟩
  m_bb_center := ⟨0, 0, 5⟩
  m_center_offset := ⟨0, 0, 0⟩
  m_cut_normal := ⟨0, 0, 1⟩
  m_clp_normal := ⟨0, 0, 1⟩
  m_radius := 10
  m_line_beg := Vec3d.Zero
  m_line_end := Vec3d.Zero
  m_ldown_mouse_position := ⟨100, 100⟩
  m_selection_rectangle := EState.Off
  cut_connectors := [example_plug, example_dowel]
  calls := []

/-- A gizmo in connectors-editing mode hovering over the second of its two connectors while the
first one is selected; the last press that added no connector was at pixel `(100, 100)`. -/
def example_hover_second : GLGizmoCut3D := { example_editing with m_hover_id := 4 }

/-- A gizmo in connectors-editing mode with both of its connectors selected, hovering over the
first one. -/
def example_hover_first : GLGizmoCut3D :=
  { example_editing with m_hover_id := 3, m_selected := [true, true], m_selected_count := 2 }

/-- The example state after "Confirm connectors": no longer editing, nothing selected. -/
def example_confirmed : GLGizmoCut3D :=
  { example_editing with
    m_connectors_editing := false, m_selected := [false, false], m_selected_count := 0,
    m_keep_upper := false }

/-- A selection of instance 0 of object 0. -/
def example_selection : Selection where
  instance_idx := 0
  object_idx := 0
  object_present := true
  instance_offset := ⟨1, 1, 0⟩
  sla_shift_z := 0

/-- The confirmed example state with the cut plane moved far above the object (height 100,
where the transformed bounding box of the example environment lies below `z = -1`) and rotated by
a quarter turn about the X axis. -/
def example_tilted : GLGizmoCut3D :=
  { example_confirmed with
    m_plane_center := ⟨0, 0, 100⟩,
    m_center_offset := ⟨0, 0, 95⟩,
    m_rotation_m := ⟨⟨⟨1, 0, 0⟩, ⟨0, 0, -1⟩, ⟨0, 1, 0⟩⟩, Vec3d.Zero⟩ }

/-- A cut-off dowel: a cut object made of a single connector volume that is a model part,
selected as a single full instance. -/
def example_dowel_view : ActivationView where
  object_idx := 0
  is_wipe_tower := false
  is_single_full_instance := true
  is_layers_editing_enabled := false
  mo := { is_cut := true, volumes := [⟨true, true⟩] }

/-- A cut part with two plug connectors (negative volumes), selected as a single full
instance. -/
def example_part_view : ActivationView where
  object_idx := 1
  is_wipe_tower := false
  is_single_full_instance := true
  is_layers_editing_enabled := false
  mo := { is_cut := true, volumes := [⟨false, true⟩, ⟨true, false⟩, ⟨true, false⟩] }

theorem fill_eq_replicate (v : List Bool) (b : Bool) : fill v b = List.replicate v.length b := by
  simp [fill, List.eq_replicate_iff]

theorem gizmo_event_left_down_free (env : Env) (g : GLGizmoCut3D) (mouse_position : Vec2d)
    (control_down : Bool)
    (hdrag : g.m_dragging = false) (hmode : g.m_connector_mode = CutConnectorMode.Manual)
    (hup : g.m_keep_upper = true) (hlow : g.m_keep_lower = true)
    (hedit : g.m_connectors_editing = true) (hhover : g.m_hover_id = -1) :
    gizmo_event env g SLAGizmoEventType.LeftDown mouse_position false false control_down
      = (true, if (add_connector env g mouse_position).1 = false
          then { (add_connector env g mouse_position).2 with
                  m_ldown_mouse_position := mouse_position }
          else (add_connector env g mouse_position).2) := by
  simp [gizmo_event, hdrag, hmode, hup, hlow, hedit, hhover]

theorem add_connector_hit (env : Env) (g : GLGizmoCut3D) (mouse_position : Vec2d)
    (pos pos_world : Vec3d) (hedit : g.m_connectors_editing = true)
    (hun : unproject_on_cut_plane env mouse_position = some (pos, pos_world)) :
    add_connector env g mouse_position
      = (true, { validate_connector_settings g with
          calls := g.calls ++ [HostCall.take_snapshot "Add connector"],
          cut_connectors := g.cut_connectors ++
            [CutConnector.mk pos g.m_rotation_m
              ((validate_connector_settings g).m_connector_size * (1 / 2))
              (validate_connector_settings g).m_connector_depth_ratio
              (validate_connector_settings g).m_connector_size_tolerance
              (validate_connector_settings g).m_connector_depth_ratio_tolerance
              ⟨(validate_connector_settings g).m_connector_type,
               (validate_connector_settings g).m_connector_style,
               (validate_connector_settings g).m_connector_shape_id⟩],
          m_selected := fill g.m_selected false ++ [true],
          m_selected_count := 1 }) := by
  unfold add_connector
  rw [if_neg (show ¬ g.m_connectors_editing = false by simp [hedit])]
  simp only [hun]
  rfl

theorem add_connector_miss (env : Env) (g : GLGizmoCut3D) (mouse_position : Vec2d)
    (hun : unproject_on_cut_plane env mouse_position = none) :
    add_connector env g mouse_position = (false, g) := by
  simp only [add_connector, hun]
  split_ifs <;> rfl

/-! ## Left click adds a connector -/

/-- Claim C1. In connectors-editing mode (not dragging, Manual mode, both parts kept), with
`m_selected` as long as the connector list and nothing hovered, `gizmo_event(LeftDown)` without
shift and alt returns true.  When `unproject_on_cut_plane` succeeds with local position `pos`,
the connector list becomes the old list followed by one connector with position `pos`, rotation
`m_rotation_m`, radius `m_connector_size / 2`, height `m_connector_depth_ratio` and the current
tolerances, type, style and shape, all read after `validate_connector_settings`; the selection
is false on every earlier connector and true on the new one, with `m_selected_count = 1`.  When
the unprojection fails the connector list is unchanged. -/
theorem gizmo_event_left_click_adds_connector (env : Env) (g : GLGizmoCut3D)
    (mouse_position : Vec2d) (control_down : Bool)
    (hdrag : g.m_dragging = false) (hmode : g.m_connector_mode = CutConnectorMode.Manual)
    (hup : g.m_keep_upper = true) (hlow : g.m_keep_lower = true)
    (hedit : g.m_connectors_editing = true)
    (hsize : g.m_selected.length = g.cut_connectors.length) (hhover : g.m_hover_id = -1) :
    (gizmo_event env g SLAGizmoEventType.LeftDown mouse_position false false control_down).1 = true
    ∧ (∀ pos pos_world, unproject_on_cut_plane env mouse_position = some (pos, pos_world) →
        (gizmo_event env g SLAGizmoEventType.LeftDown mouse_position false false
            control_down).2.cut_connectors
          = g.cut_connectors ++
            [CutConnector.mk pos g.m_rotation_m
              ((validate_connector_settings g).m_connector_size / 2)
              (validate_connector_settings g).m_connector_depth_ratio
              (validate_connector_settings g).m_connector_size_tolerance
              (validate_connector_settings g).m_connector_depth_ratio_tolerance
              ⟨(validate_connector_settings g).m_connector_type,
               (validate_connector_settings g).m_connector_style,
               (validate_connector_settings g).m_connector_shape_id⟩]
        ∧ (gizmo_event env g SLAGizmoEventType.LeftDown mouse_position false false
            control_down).2.m_selected
          = List.replicate g.cut_connectors.length false ++ [true]
        ∧ (gizmo_event env g SLAGizmoEventType.LeftDown mouse_position false false
            control_down).2.m_selected_count = 1)
    ∧ (unproject_on_cut_plane env mouse_position = none →
        (gizmo_event env g SLAGizmoEventType.LeftDown mouse_position false false
            control_down).2.cut_connectors = g.cut_connectors) := by
  rw [gizmo_event_left_down_free env g mouse_position control_down hdrag hmode hup hlow hedit
    hhover]
  refine ⟨rfl, ?_, ?_⟩
  · intro pos pos_world hun
    rw [add_connector_hit env g mouse_position pos pos_world hedit hun]
    simp only [Bool.true_eq_false, if_false, fill_eq_replicate, hsize]
    refine ⟨?_, trivial, trivial⟩
    simp [div_eq_mul_inv]
  · intro hun
    rw [add_connector_miss env g mouse_position hun]
    simp

theorem example_unproject :
    unproject_on_cut_plane example_env ⟨2, 3⟩ = some (⟨1, 2, 0⟩, ⟨2, 3, 0⟩) := by
  simp [unproject_on_cut_plane, example_env, Vec3d.neg, Vec3d.dot, Vec3d.add, Vec3d.smul,
    Vec3d.sub]
  norm_num

/-- Witness for C1: a click at `(2, 3)` on the example state appends a third connector at the
unprojected point `(1, 2, 0)` and selects it alone. -/
theorem gizmo_event_left_click_adds_connector_witness :
    (gizmo_event example_env example_editing SLAGizmoEventType.LeftDown ⟨2, 3⟩ false false
        false).1 = true
    ∧ (gizmo_event example_env example_editing SLAGizmoEventType.LeftDown ⟨2, 3⟩ false false
        false).2.cut_connectors
      = [example_plug, example_dowel,
          CutConnector.mk ⟨1, 2, 0⟩ Transform3d.Identity (5 / 2 / 2) 3 0 (1 / 10)
            ⟨CutConnectorType.Plug, CutConnectorStyle.Prizm, CutConnectorShape.Circle⟩]
    ∧ (gizmo_event example_env example_editing SLAGizmoEventType.LeftDown ⟨2, 3⟩ false false
        false).2.m_selected = [false, false, true] := by
  obtain ⟨h1, h2, -⟩ := gizmo_event_left_click_adds_connector example_env example_editing
    ⟨2, 3⟩ false rfl rfl rfl rfl rfl rfl rfl
  obtain ⟨h3, h4, -⟩ := h2 _ _ example_unproject
  refine ⟨h1, ?_, ?_⟩
  · rw [h3]
    simp [validate_connector_settings, example_editing]
  · rw [h4]
    rfl

/-! ## Right click removes a connector -/

theorem erase_selected_single (cs : List CutConnector) (n k : Nat) (i : Nat) :
    erase_selected ((List.replicate n false).set k true) i cs
      = if k < i ∧ k < n then cs.eraseIdx k else cs := by
  induction i generalizing cs with
  | zero => simp [erase_selected]
  | succ i ih =>
    simp only [erase_selected]
    rw [ih]
    by_cases hk : k = i
    · subst hk
      by_cases hn : k < n
      · simp [hn, List.getD_eq_getElem?_getD, List.getElem?_set]
      · have : n ≤ k := by omega
        simp [hn, List.getD_eq_getElem?_getD, List.getElem?_set, this]
    · have hget : ((List.replicate n false).set k true).getD i false = false := by
        simp only [List.getD_eq_getElem?_getD, List.getElem?_set]
        split_ifs
        · simp [List.getElem?_replicate]
          split_ifs <;> simp
      simp only [hget]
      by_cases h1 : k < i
      · have : k < i + 1 := by omega
        simp [h1, this]
      · have : ¬ k < i + 1 := by omega
        simp [h1, this]

theorem filter_unselected_single (n k : Nat) (hk : k < n) :
    ((List.replicate n false).set k true).filter (fun selected => !selected)
      = List.replicate (n - 1) false := by
  induction n generalizing k with
  | zero => omega
  | succ n ih =>
    cases k with
    | zero => simp [List.replicate_succ]
    | succ k =>
      have hk2 : k < n := by omega
      have hn : n = (n - 1) + 1 := by omega
      simp only [List.replicate_succ, List.set_cons_succ, List.filter_cons, Bool.not_false,
        if_true, Nat.add_sub_cancel]
      rw [ih k hk2]
      conv_rhs => rw [hn]
      simp [List.replicate_succ]

theorem gizmo_event_right_down (env : Env) (g : GLGizmoCut3D) (mouse_position : Vec2d)
    (alt_down control_down : Bool)
    (hdrag : g.m_dragging = false) (hmode : g.m_connector_mode = CutConnectorMode.Manual)
    (hup : g.m_keep_upper = true) (hlow : g.m_keep_lower = true)
    (hedit : g.m_connectors_editing = true) :
    gizmo_event env g SLAGizmoEventType.RightDown mouse_position false alt_down control_down
      = if g.m_hover_id < g.m_connectors_group_id then (false, g)
        else delete_selected_connectors
          (select_connector (unselect_all_connectors g)
            (g.m_hover_id - g.m_connectors_group_id) true) := by
  simp [gizmo_event, hdrag, hmode, hup, hlow, hedit]
  rfl

theorem delete_hovered_connector (g : GLGizmoCut3D) (k : Nat)
    (hsize : g.m_selected.length = g.cut_connectors.length) (hk : k < g.cut_connectors.length) :
    delete_selected_connectors (select_connector (unselect_all_connectors g) (k : Int) true)
      = (true, { validate_connector_settings g with
          calls := g.calls ++ [HostCall.take_snapshot "Delete connector"],
          cut_connectors := g.cut_connectors.eraseIdx k,
          m_selected := List.replicate (g.cut_connectors.length - 1) false,
          m_selected_count := 0 }) := by
  have hne : g.cut_connectors.isEmpty = false := by
    cases hc : g.cut_connectors with
    | nil => rw [hc] at hk; simp at hk
    | cons a l => rfl
  have hsel : (select_connector (unselect_all_connectors g) (k : Int) true).m_selected
      = (List.replicate g.cut_connectors.length false).set k true := by
    simp [select_connector, unselect_all_connectors, validate_connector_settings,
      fill_eq_replicate, hsize]
  have hcon : (select_connector (unselect_all_connectors g) (k : Int) true).cut_connectors
      = g.cut_connectors := rfl
  unfold delete_selected_connectors
  rw [hcon, hne]
  simp only [Bool.false_eq_true, if_false, hsel, hcon, erase_selected_single,
    filter_unselected_single _ _ hk, hk, and_self, if_true]
  rfl

/-- Claim C2. In connectors-editing mode (not dragging, Manual mode, both parts kept),
`gizmo_event(RightDown)` without shift: when `m_selected` is as long as the connector list and
the hovered index `k = m_hover_id - m_connectors_group_id` satisfies `0 <= k < connectors.size()`,
it returns true, the connector list becomes the old one with exactly its `k`-th element erased,
whatever the previous selection was, and afterwards every entry of `m_selected` is false with
`m_selected_count = 0`; when `m_hover_id < m_connectors_group_id` it returns false and changes
nothing. -/
theorem gizmo_event_right_click_removes_connector (env : Env) (g : GLGizmoCut3D)
    (mouse_position : Vec2d) (alt_down control_down : Bool)
    (hdrag : g.m_dragging = false) (hmode : g.m_connector_mode = CutConnectorMode.Manual)
    (hup : g.m_keep_upper = true) (hlow : g.m_keep_lower = true)
    (hedit : g.m_connectors_editing = true) :
    (∀ k : Nat, g.m_selected.length = g.cut_connectors.length →
        g.m_hover_id - g.m_connectors_group_id = (k : Int) → k < g.cut_connectors.length →
        (gizmo_event env g SLAGizmoEventType.RightDown mouse_position false alt_down
            control_down).1 = true
        ∧ (gizmo_event env g SLAGizmoEventType.RightDown mouse_position false alt_down
            control_down).2.cut_connectors = g.cut_connectors.eraseIdx k
        ∧ (gizmo_event env g SLAGizmoEventType.RightDown mouse_position false alt_down
            control_down).2.m_selected = List.replicate (g.cut_connectors.length - 1) false
        ∧ (gizmo_event env g SLAGizmoEventType.RightDown mouse_position false alt_down
            control_down).2.m_selected.length
          = (gizmo_event env g SLAGizmoEventType.RightDown mouse_position false alt_down
              control_down).2.cut_connectors.length
        ∧ (gizmo_event env g SLAGizmoEventType.RightDown mouse_position false alt_down
            control_down).2.m_selected_count = 0)
    ∧ (g.m_hover_id < g.m_connectors_group_id →
        gizmo_event env g SLAGizmoEventType.RightDown mouse_position false alt_down control_down
          = (false, g)) := by
  rw [gizmo_event_right_down env g mouse_position alt_down control_down hdrag hmode hup hlow
    hedit]
  refine ⟨?_, ?_⟩
  · intro k hsize hk hlt
    have hge : ¬ g.m_hover_id < g.m_connectors_group_id := by omega
    rw [if_neg hge, hk, delete_hovered_connector g k hsize hlt]
    refine ⟨rfl, rfl, rfl, ?_, rfl⟩
    simp [List.length_eraseIdx, hlt]
  · intro hlt
    rw [if_pos hlt]

/-- Witness for C2: a right click while hovering over the second connector of the example state
(the first being selected) leaves exactly the first connector, unselected. -/
theorem gizmo_event_right_click_removes_connector_witness :
    (gizmo_event example_env example_hover_second SLAGizmoEventType.RightDown ⟨0, 0⟩ false false
        false).1 = true
    ∧ (gizmo_event example_env example_hover_second SLAGizmoEventType.RightDown ⟨0, 0⟩ false false
        false).2.cut_connectors = [example_plug]
    ∧ (gizmo_event example_env example_hover_second SLAGizmoEventType.RightDown ⟨0, 0⟩ false false
        false).2.m_selected = [false] := by
  obtain ⟨h1, h2, h3, -⟩ := (gizmo_event_right_click_removes_connector example_env
    example_hover_second ⟨0, 0⟩ false false rfl rfl rfl rfl rfl).1 1 rfl rfl (by decide)
  exact ⟨h1, h2, h3⟩

/-! ## Shift / Alt + left click on a connector -/

theorem gizmo_event_left_up (env : Env) (g : GLGizmoCut3D) (mouse_position : Vec2d)
    (shift_down alt_down control_down : Bool)
    (hdrag : g.m_dragging = false) (hmode : g.m_connector_mode = CutConnectorMode.Manual)
    (hup : g.m_keep_upper = true) (hlow : g.m_keep_lower = true)
    (hedit : g.m_connectors_editing = true) (hrect : g.m_selection_rectangle = EState.Off) :
    gizmo_event env g SLAGizmoEventType.LeftUp mouse_position shift_down alt_down control_down
      = is_selection_changed
          (if (g.m_ldown_mouse_position.sub mouse_position).squaredNorm < 5 * 5
            then unselect_all_connectors g else g) alt_down shift_down := by
  simp [gizmo_event, hdrag, hmode, hup, hlow, hedit, hrect]

/-- Claim C3, counterexample. In the example state the first connector is selected, the second
one is hovered and the remembered press position `m_ldown_mouse_position` is `(100, 100)`.
`gizmo_event(LeftUp)` at `(102, 101)` with shift down and alt up returns true and selects the
hovered connector, but entry 0 of `m_selected`, which was true, is false afterwards: the first
connector does not stay selected. -/
theorem gizmo_event_shift_click_counterexample :
    example_hover_second.m_dragging = false
    ∧ example_hover_second.m_connector_mode = CutConnectorMode.Manual
    ∧ example_hover_second.m_keep_upper = true ∧ example_hover_second.m_keep_lower = true
    ∧ example_hover_second.m_connectors_editing = true
    ∧ example_hover_second.m_selection_rectangle = EState.Off
    ∧ example_hover_second.m_hover_id - example_hover_second.m_connectors_group_id = 1
    ∧ example_hover_second.m_selected = [true, false]
    ∧ example_hover_second.m_selected[0]? = some true
    ∧ (gizmo_event example_env example_hover_second SLAGizmoEventType.LeftUp ⟨102, 101⟩ true false
        false).1 = true
    ∧ (gizmo_event example_env example_hover_second SLAGizmoEventType.LeftUp ⟨102, 101⟩ true false
        false).2.m_selected = [false, true]
    ∧ (gizmo_event example_env example_hover_second SLAGizmoEventType.LeftUp ⟨102, 101⟩ true false
        false).2.m_selected[0]? = some false := by
  refine ⟨rfl, rfl, rfl, rfl, rfl, rfl, rfl, rfl, rfl, ?_⟩
  rw [gizmo_event_left_up _ _ _ _ _ _ rfl rfl rfl rfl rfl rfl]
  have hnear : (example_hover_second.m_ldown_mouse_position.sub ⟨102, 101⟩).squaredNorm < 5 * 5 := by
    simp [example_hover_second, example_editing, Vec2d.sub, Vec2d.squaredNorm]
    norm_num
  rw [if_pos hnear]
  simp [is_selection_changed, select_connector, unselect_all_connectors,
    validate_connector_settings, fill, example_hover_second, example_editing]

theorem is_selection_changed_hovered (g : GLGizmoCut3D) (alt_down shift_down : Bool) (k : Nat)
    (hk : g.m_hover_id - g.m_connectors_group_id = (k : Int)) :
    is_selection_changed g alt_down shift_down
      = (true,
          if alt_down then select_connector g (k : Int) false
          else select_connector (if shift_down then g else unselect_all_connectors g)
            (k : Int) true) := by
  have hge : g.m_hover_id ≥ g.m_connectors_group_id := by omega
  unfold is_selection_changed
  rw [if_pos hge]
  have hk2 : (unselect_all_connectors g).m_hover_id
      - (unselect_all_connectors g).m_connectors_group_id = (k : Int) := hk
  cases alt_down <;> cases shift_down <;> simp [hk, hk2]

/-- Claim C3, amended. In connectors-editing mode (not dragging, Manual mode, both parts kept,
selection rectangle not dragging), when the release position is at distance at least 5 from
`m_ldown_mouse_position`, `gizmo_event(LeftUp)` with shift down and alt up over a hovered
connector `k = m_hover_id - m_connectors_group_id` returns true, sets `m_selected[k]` to true
and leaves every other entry of `m_selected` as it was. -/
theorem gizmo_event_shift_click_adds_to_selection (env : Env) (g : GLGizmoCut3D)
    (mouse_position : Vec2d) (control_down : Bool) (k : Nat)
    (hdrag : g.m_dragging = false) (hmode : g.m_connector_mode = CutConnectorMode.Manual)
    (hup : g.m_keep_upper = true) (hlow : g.m_keep_lower = true)
    (hedit : g.m_connectors_editing = true) (hrect : g.m_selection_rectangle = EState.Off)
    (hfar : 5 * 5 ≤ (g.m_ldown_mouse_position.sub mouse_position).squaredNorm)
    (hk : g.m_hover_id - g.m_connectors_group_id = (k : Int)) :
    (gizmo_event env g SLAGizmoEventType.LeftUp mouse_position true false control_down).1 = true
    ∧ (gizmo_event env g SLAGizmoEventType.LeftUp mouse_position true false
        control_down).2.m_selected = g.m_selected.set k true
    ∧ (k < g.m_selected.length →
        (gizmo_event env g SLAGizmoEventType.LeftUp mouse_position true false
          control_down).2.m_selected[k]? = some true)
    ∧ ∀ i, i ≠ k →
        (gizmo_event env g SLAGizmoEventType.LeftUp mouse_position true false
          control_down).2.m_selected[i]? = g.m_selected[i]? := by
  rw [gizmo_event_left_up env g mouse_position true false control_down hdrag hmode hup hlow
    hedit hrect, if_neg (not_lt.mpr hfar), is_selection_changed_hovered g false true k hk]
  refine ⟨rfl, ?_, ?_, ?_⟩
  · simp [select_connector]
  · intro hlt
    simp [select_connector, List.getElem?_set, hlt]
  · intro i hi
    simp [select_connector, List.getElem?_set, Ne.symm hi]

/-- Witness for C3: a shift-click released at `(300, 200)` on the hovered second connector of the
example state keeps the first connector selected and selects the second. -/
theorem gizmo_event_shift_click_adds_to_selection_witness :
    (gizmo_event example_env example_hover_second SLAGizmoEventType.LeftUp ⟨300, 200⟩ true false
        false).1 = true
    ∧ (gizmo_event example_env example_hover_second SLAGizmoEventType.LeftUp ⟨300, 200⟩ true false
        false).2.m_selected = [true, true] := by
  obtain ⟨h1, h2, -⟩ := gizmo_event_shift_click_adds_to_selection example_env
    example_hover_second ⟨300, 200⟩ false 1 rfl rfl rfl rfl rfl rfl
    (by simp [example_hover_second, example_editing, Vec2d.sub, Vec2d.squaredNorm]; norm_num)
    rfl
  exact ⟨h1, h2⟩

/-- Claim C4, counterexample. In the example state the first connector is selected, the second
one is hovered and `m_ldown_mouse_position` is `(100, 100)`.  `gizmo_event(LeftUp)` at
`(102, 101)` with alt down returns true and leaves the hovered connector unselected, but
entry 0 of `m_selected`, which was true, is false afterwards: the first connector is unselected
as well. -/
theorem gizmo_event_alt_click_counterexample :
    example_hover_second.m_dragging = false
    ∧ example_hover_second.m_connector_mode = CutConnectorMode.Manual
    ∧ example_hover_second.m_keep_upper = true ∧ example_hover_second.m_keep_lower = true
    ∧ example_hover_second.m_connectors_editing = true
    ∧ example_hover_second.m_selection_rectangle = EState.Off
    ∧ example_hover_second.m_hover_id - example_hover_second.m_connectors_group_id = 1
    ∧ example_hover_second.m_selected = [true, false]
    ∧ example_hover_second.m_selected[0]? = some true
    ∧ (gizmo_event example_env example_hover_second SLAGizmoEventType.LeftUp ⟨102, 101⟩ false true
        false).1 = true
    ∧ (gizmo_event example_env example_hover_second SLAGizmoEventType.LeftUp ⟨102, 101⟩ false true
        false).2.m_selected = [false, false]
    ∧ (gizmo_event example_env example_hover_second SLAGizmoEventType.LeftUp ⟨102, 101⟩ false true
        false).2.m_selected[0]? = some false := by
  refine ⟨rfl, rfl, rfl, rfl, rfl, rfl, rfl, rfl, rfl, ?_⟩
  rw [gizmo_event_left_up _ _ _ _ _ _ rfl rfl rfl rfl rfl rfl]
  have hnear : (example_hover_second.m_ldown_mouse_position.sub ⟨102, 101⟩).squaredNorm < 5 * 5 := by
    simp [example_hover_second, example_editing, Vec2d.sub, Vec2d.squaredNorm]
    norm_num
  rw [if_pos hnear]
  simp [is_selection_changed, select_connector, unselect_all_connectors,
    validate_connector_settings, fill, example_hover_second, example_editing]

/-- Claim C4, amended. In connectors-editing mode (not dragging, Manual mode, both parts kept,
selection rectangle not dragging), when the release position is at distance at least 5 from
`m_ldown_mouse_position`, `gizmo_event(LeftUp)` with alt down over a hovered connector
`k = m_hover_id - m_connectors_group_id` returns true, sets `m_selected[k]` to false and leaves
every other entry of `m_selected` as it was. -/
theorem gizmo_event_alt_click_removes_from_selection (env : Env) (g : GLGizmoCut3D)
    (mouse_position : Vec2d) (shift_down control_down : Bool) (k : Nat)
    (hdrag : g.m_dragging = false) (hmode : g.m_connector_mode = CutConnectorMode.Manual)
    (hup : g.m_keep_upper = true) (hlow : g.m_keep_lower = true)
    (hedit : g.m_connectors_editing = true) (hrect : g.m_selection_rectangle = EState.Off)
    (hfar : 5 * 5 ≤ (g.m_ldown_mouse_position.sub mouse_position).squaredNorm)
    (hk : g.m_hover_id - g.m_connectors_group_id = (k : Int)) :
    (gizmo_event env g SLAGizmoEventType.LeftUp mouse_position shift_down true control_down).1
      = true
    ∧ (gizmo_event env g SLAGizmoEventType.LeftUp mouse_position shift_down true
        control_down).2.m_selected = g.m_selected.set k false
    ∧ (k < g.m_selected.length →
        (gizmo_event env g SLAGizmoEventType.LeftUp mouse_position shift_down true
          control_down).2.m_selected[k]? = some false)
    ∧ ∀ i, i ≠ k →
        (gizmo_event env g SLAGizmoEventType.LeftUp mouse_position shift_down true
          control_down).2.m_selected[i]? = g.m_selected[i]? := by
  rw [gizmo_event_left_up env g mouse_position shift_down true control_down hdrag hmode hup hlow
    hedit hrect, if_neg (not_lt.mpr hfar), is_selection_changed_hovered g true shift_down k hk]
  refine ⟨rfl, ?_, ?_, ?_⟩
  · simp [select_connector]
  · intro hlt
    simp [select_connector, List.getElem?_set, hlt]
  · intro i hi
    simp [select_connector, List.getElem?_set, Ne.symm hi]

/-- Witness for C4: an alt-click released at `(300, 200)` on the hovered first connector of the
example state, which is selected, unselects it and leaves the second entry as it was. -/
theorem gizmo_event_alt_click_removes_from_selection_witness :
    (gizmo_event example_env example_hover_first SLAGizmoEventType.LeftUp ⟨300, 200⟩ false true
        false).1 = true
    ∧ (gizmo_event example_env example_hover_first SLAGizmoEventType.LeftUp ⟨300, 200⟩ false true
        false).2.m_selected = [false, true] := by
  obtain ⟨h1, h2, -⟩ := gizmo_event_alt_click_removes_from_selection example_env
    example_hover_first ⟨300, 200⟩ false false 0 rfl rfl rfl rfl rfl rfl
    (by simp [example_hover_first, example_editing, Vec2d.sub, Vec2d.squaredNorm]; norm_num)
    rfl
  exact ⟨h1, h2⟩

/-! ## Select all -/

/-- Claim C5. In connectors-editing mode (not dragging, Manual mode, both parts kept),
`gizmo_event(SelectAll)` returns true, sets every entry of `m_selected` to true without changing
its length, sets `m_selected_count` to `m_selected.size()` and does not change the connector
list. -/
theorem gizmo_event_select_all (env : Env) (g : GLGizmoCut3D) (mouse_position : Vec2d)
    (shift_down alt_down control_down : Bool)
    (hdrag : g.m_dragging = false) (hmode : g.m_connector_mode = CutConnectorMode.Manual)
    (hup : g.m_keep_upper = true) (hlow : g.m_keep_lower = true)
    (hedit : g.m_connectors_editing = true) :
    (gizmo_event env g SLAGizmoEventType.SelectAll mouse_position shift_down alt_down
        control_down).1 = true
    ∧ (gizmo_event env g SLAGizmoEventType.SelectAll mouse_position shift_down alt_down
        control_down).2.m_selected = List.replicate g.m_selected.length true
    ∧ (gizmo_event env g SLAGizmoEventType.SelectAll mouse_position shift_down alt_down
        control_down).2.m_selected.length = g.m_selected.length
    ∧ (gizmo_event env g SLAGizmoEventType.SelectAll mouse_position shift_down alt_down
        control_down).2.m_selected_count = (g.m_selected.length : Int)
    ∧ (gizmo_event env g SLAGizmoEventType.SelectAll mouse_position shift_down alt_down
        control_down).2.cut_connectors = g.cut_connectors := by
  have h : gizmo_event env g SLAGizmoEventType.SelectAll mouse_position shift_down alt_down
      control_down = (true, select_all_connectors g) := by
    simp [gizmo_event, hdrag, hmode, hup, hlow, hedit]
  rw [h]
  simp [select_all_connectors, fill_eq_replicate]

/-- Witness for C5: select-all on the example state, where only the first of two connectors is
selected. -/
theorem gizmo_event_select_all_witness :
    (gizmo_event example_env example_editing SLAGizmoEventType.SelectAll ⟨0, 0⟩ false false
        true).1 = true
    ∧ (gizmo_event example_env example_editing SLAGizmoEventType.SelectAll ⟨0, 0⟩ false false
        true).2.m_selected = [true, true]
    ∧ (gizmo_event example_env example_editing SLAGizmoEventType.SelectAll ⟨0, 0⟩ false false
        true).2.m_selected_count = 2 := by
  obtain ⟨h1, h2, -, h4, -⟩ := gizmo_event_select_all example_env example_editing ⟨0, 0⟩
    false false true rfl rfl rfl rfl rfl
  exact ⟨h1, h2, h4⟩

/-! ## Performing the cut -/

/-- Claim C6. `can_perform_cut` returns false whenever an invalid connector was detected,
whenever neither the upper nor the lower part is kept, and whenever connectors are being edited;
in every other state it returns true exactly when the object clipper exists and reports a valid
contour. -/
theorem can_perform_cut_spec (env : Env) (g : GLGizmoCut3D) :
    (g.m_has_invalid_connector = true → can_perform_cut env g = false)
    ∧ (g.m_keep_upper = false ∧ g.m_keep_lower = false → can_perform_cut env g = false)
    ∧ (g.m_connectors_editing = true → can_perform_cut env g = false)
    ∧ (g.m_has_invalid_connector = false → (g.m_keep_upper = true ∨ g.m_keep_lower = true) →
        g.m_connectors_editing = false →
        (can_perform_cut env g = true
          ↔ ∃ clipper, env.object_clipper = some clipper ∧ clipper.has_valid_contour = true)) := by
  refine ⟨?_, ?_, ?_, ?_⟩
  · intro h
    simp [can_perform_cut, h]
  · intro h
    simp [can_perform_cut, h.1, h.2]
  · intro h
    simp [can_perform_cut, h]
  · intro h1 h2 h3
    have hcond : ¬ (g.m_has_invalid_connector = true ∨
        (g.m_keep_upper = false ∧ g.m_keep_lower = false) ∨ g.m_connectors_editing = true) := by
      rcases h2 with h2 | h2 <;> simp [h1, h2, h3]
    unfold can_perform_cut
    rw [if_neg hcond]
    cases env.object_clipper with
    | none => simp
    | some c => simp

/-- Witness for C6: the example state after its connectors were confirmed may be cut, the
clipper of the example environment reporting a valid contour. -/
theorem can_perform_cut_spec_witness :
    can_perform_cut example_env example_editing = false
    ∧ can_perform_cut example_env example_confirmed = true :=
  ⟨(can_perform_cut_spec example_env example_editing).2.2.1 rfl,
   ((can_perform_cut_spec example_env example_confirmed).2.2.2 rfl (Or.inr rfl) rfl).mpr
     ⟨_, rfl, rfl⟩⟩

/-- Claim C7. `perform_cut` is a no-op when the cut is not allowed: when `can_perform_cut()` is
false the whole state is returned unchanged; in particular no host call is made (no
`reset_all_gizmos`, no snapshot, no `cut`) and no connector of the model object is modified. -/
theorem perform_cut_noop (env : Env) (g : GLGizmoCut3D) (selection : Selection)
    (h : can_perform_cut env g = false) :
    perform_cut env g selection = g
    ∧ (perform_cut env g selection).calls = g.calls
    ∧ (perform_cut env g selection).cut_connectors = g.cut_connectors := by
  have h1 : perform_cut env g selection = g := by
    unfold perform_cut
    rw [if_pos h]
  rw [h1]
  exact ⟨rfl, rfl, rfl⟩

/-- Witness for C7: while connectors are being edited, `perform_cut` leaves the example state
untouched. -/
theorem perform_cut_noop_witness :
    can_perform_cut example_env example_editing = false
    ∧ perform_cut example_env example_editing example_selection = example_editing :=
  ⟨rfl, (perform_cut_noop example_env example_editing example_selection rfl).1⟩

theorem apply_connectors_loop_flag (env : Env) (g : GLGizmoCut3D) (connectors : List CutConnector)
    (create_dowels : Bool) :
    (apply_connectors_loop env g connectors create_dowels).2
      = (create_dowels ||
          connectors.any (fun c => decide (c.attribs.type = CutConnectorType.Dowel))) := by
  induction connectors generalizing create_dowels with
  | nil => simp [apply_connectors_loop]
  | cons c rest ih =>
    by_cases hd : c.attribs.type = CutConnectorType.Dowel
    · simp [apply_connectors_loop, hd, ih]
    · simp [apply_connectors_loop, hd, ih]

theorem apply_connectors_in_model_flag (env : Env) (g : GLGizmoCut3D) :
    (apply_connectors_in_model env g false).2
      = (decide (g.m_connector_mode = CutConnectorMode.Manual) &&
          g.cut_connectors.any (fun c => decide (c.attribs.type = CutConnectorType.Dowel))) := by
  unfold apply_connectors_in_model
  by_cases hm : g.m_connector_mode = CutConnectorMode.Manual
  · simp only [hm, if_true, apply_connectors_loop_flag]
    simp [clear_selection]
  · simp [hm]

theorem apply_connectors_in_model_calls (env : Env) (g : GLGizmoCut3D) (b : Bool) :
    (apply_connectors_in_model env g b).1.calls
      = g.calls ++ (if g.m_connector_mode = CutConnectorMode.Manual
          then [HostCall.apply_cut_connectors "Connector"] else []) := by
  unfold apply_connectors_in_model
  by_cases hm : g.m_connector_mode = CutConnectorMode.Manual
  · simp [hm, clear_selection]
  · simp [hm]

theorem apply_connectors_in_model_frame (env : Env) (g : GLGizmoCut3D) (b : Bool) :
    (apply_connectors_in_model env g b).1.m_keep_upper = g.m_keep_upper
    ∧ (apply_connectors_in_model env g b).1.m_keep_lower = g.m_keep_lower
    ∧ (apply_connectors_in_model env g b).1.m_place_on_cut_upper = g.m_place_on_cut_upper
    ∧ (apply_connectors_in_model env g b).1.m_place_on_cut_lower = g.m_place_on_cut_lower
    ∧ (apply_connectors_in_model env g b).1.m_rotate_upper = g.m_rotate_upper
    ∧ (apply_connectors_in_model env g b).1.m_rotate_lower = g.m_rotate_lower
    ∧ (apply_connectors_in_model env g b).1.m_rotation_m = g.m_rotation_m := by
  unfold apply_connectors_in_model
  by_cases hm : g.m_connector_mode = CutConnectorMode.Manual
  · simp [hm, clear_selection]
  · simp [hm]

theorem mem_only_if (condition : Bool) (flag a : ModelObjectCutAttribute) :
    a ∈ only_if condition flag ↔ (condition = true ∧ a = flag) := by
  cases condition <;> simp [only_if]

/-- Claim C8. `perform_cut` commits a cut exactly when the cut is allowed, the selection is valid
and the model object exists; otherwise it returns the state unchanged.  When it commits, the
host calls it makes are `reset_all_gizmos`, the snapshot
"Cut by Plane", `apply_cut_connectors` in Manual mode, and one `cut` whose attribute set holds
`KeepUpper` iff the object had connectors before the call or `m_keep_upper`, `KeepLower` iff it
had connectors or `m_keep_lower`, `PlaceOnCutUpper` iff `m_place_on_cut_upper`,
`PlaceOnCutLower` iff `m_place_on_cut_lower`, `FlipUpper` iff `m_rotate_upper`, `FlipLower` iff
`m_rotate_lower`, and `CreateDowels` iff the connector mode is Manual and some connector of the
object has type Dowel.  In particular an object with connectors is cut keeping both parts. -/
theorem perform_cut_attributes (env : Env) (g : GLGizmoCut3D) (selection : Selection) :
    (¬ (can_perform_cut env g = true ∧ selection.instance_idx ≥ 0 ∧ selection.object_idx ≥ 0
          ∧ selection.object_present = true) →
      perform_cut env g selection = g)
    ∧ (can_perform_cut env g = true ∧ selection.instance_idx ≥ 0 ∧ selection.object_idx ≥ 0
          ∧ selection.object_present = true →
      ∃ cut_matrix attributes,
        (perform_cut env g selection).calls
          = g.calls ++ [HostCall.reset_all_gizmos, HostCall.take_snapshot "Cut by Plane"]
            ++ (if g.m_connector_mode = CutConnectorMode.Manual
                then [HostCall.apply_cut_connectors "Connector"] else [])
            ++ [HostCall.cut selection.object_idx selection.instance_idx cut_matrix attributes]
        ∧ (ModelObjectCutAttribute.KeepUpper ∈ attributes
            ↔ g.cut_connectors ≠ [] ∨ g.m_keep_upper = true)
        ∧ (ModelObjectCutAttribute.KeepLower ∈ attributes
            ↔ g.cut_connectors ≠ [] ∨ g.m_keep_lower = true)
        ∧ (ModelObjectCutAttribute.PlaceOnCutUpper ∈ attributes ↔ g.m_place_on_cut_upper = true)
        ∧ (ModelObjectCutAttribute.PlaceOnCutLower ∈ attributes ↔ g.m_place_on_cut_lower = true)
        ∧ (ModelObjectCutAttribute.FlipUpper ∈ attributes ↔ g.m_rotate_upper = true)
        ∧ (ModelObjectCutAttribute.FlipLower ∈ attributes ↔ g.m_rotate_lower = true)
        ∧ (ModelObjectCutAttribute.CreateDowels ∈ attributes
            ↔ g.m_connector_mode = CutConnectorMode.Manual
              ∧ ∃ c ∈ g.cut_connectors, c.attribs.type = CutConnectorType.Dowel)
        ∧ (g.cut_connectors ≠ [] →
            ModelObjectCutAttribute.KeepUpper ∈ attributes
            ∧ ModelObjectCutAttribute.KeepLower ∈ attributes)) := by
  refine ⟨?_, ?_⟩
  · intro hno
    unfold perform_cut
    by_cases hcan : can_perform_cut env g = false
    · rw [if_pos hcan]
    · rw [if_neg hcan]
      by_cases hsel : ¬ (selection.instance_idx ≥ 0 ∧ selection.object_idx ≥ 0)
      · rw [if_pos hsel]
      · rw [if_neg hsel]
        by_cases hmo : selection.object_present = false
        · rw [if_pos hmo]
        · exfalso
          exact hno ⟨by simpa using hcan, (not_not.mp hsel).1, (not_not.mp hsel).2,
            by simpa using hmo⟩
  rintro ⟨hcan, hinst, hobj, hmo⟩
  have hsel : ¬ ¬ (selection.instance_idx ≥ 0 ∧ selection.object_idx ≥ 0) :=
    not_not.mpr ⟨hinst, hobj⟩
  have hcan2 : ¬ can_perform_cut env g = false := by simp [hcan]
  have hmo2 : ¬ selection.object_present = false := by simp [hmo]
  obtain ⟨f1, f2, f3, f4, f5, f6, f7⟩ := apply_connectors_in_model_frame env
    { g with calls := g.calls ++ [HostCall.reset_all_gizmos] ++
        [HostCall.take_snapshot "Cut by Plane"] } false
  have hflag := apply_connectors_in_model_flag env
    { g with calls := g.calls ++ [HostCall.reset_all_gizmos] ++
        [HostCall.take_snapshot "Cut by Plane"] }
  have hcalls := apply_connectors_in_model_calls env
    { g with calls := g.calls ++ [HostCall.reset_all_gizmos] ++
        [HostCall.take_snapshot "Cut by Plane"] } false
  simp only [] at f1 f2 f3 f4 f5 f6 f7 hflag hcalls
  refine ⟨(translation_transform
      { g.m_plane_center.sub selection.instance_offset with
        z := (g.m_plane_center.sub selection.instance_offset).z - selection.sla_shift_z }).mul
      g.m_rotation_m,
    only_if (if (!g.cut_connectors.isEmpty) = true then true else g.m_keep_upper)
        ModelObjectCutAttribute.KeepUpper ++
      only_if (if (!g.cut_connectors.isEmpty) = true then true else g.m_keep_lower)
        ModelObjectCutAttribute.KeepLower ++
      only_if g.m_place_on_cut_upper ModelObjectCutAttribute.PlaceOnCutUpper ++
      only_if g.m_place_on_cut_lower ModelObjectCutAttribute.PlaceOnCutLower ++
      only_if g.m_rotate_upper ModelObjectCutAttribute.FlipUpper ++
      only_if g.m_rotate_lower ModelObjectCutAttribute.FlipLower ++
      only_if (decide (g.m_connector_mode = CutConnectorMode.Manual) &&
          g.cut_connectors.any (fun c => decide (c.attribs.type = CutConnectorType.Dowel)))
        ModelObjectCutAttribute.CreateDowels, ?_, ?_⟩
  · unfold perform_cut
    rw [if_neg hcan2, if_neg hsel, if_neg hmo2]
    simp only [f1, f2, f3, f4, f5, f6, f7, hflag, hcalls]
    simp only [List.append_assoc, List.singleton_append, List.cons_append, List.nil_append]
  · simp only [List.mem_append, mem_only_if]
    cases hc : g.cut_connectors with
    | nil => simp
    | cons c rest => simp

/-- Witness for C8: cutting the confirmed example state, which has a plug and a dowel connector
and `m_keep_upper` off, passes `KeepUpper`, `KeepLower` and `CreateDowels` to the host. -/
theorem perform_cut_attributes_witness :
    ∃ cut_matrix attributes,
      (perform_cut example_env example_confirmed example_selection).calls
        = [HostCall.reset_all_gizmos, HostCall.take_snapshot "Cut by Plane",
            HostCall.apply_cut_connectors "Connector",
            HostCall.cut 0 0 cut_matrix attributes]
      ∧ ModelObjectCutAttribute.KeepUpper ∈ attributes
      ∧ ModelObjectCutAttribute.KeepLower ∈ attributes
      ∧ ModelObjectCutAttribute.CreateDowels ∈ attributes
      ∧ ModelObjectCutAttribute.FlipUpper ∉ attributes := by
  obtain ⟨m, a, h1, h2, h3, -, -, h6, -, h8, -⟩ := (perform_cut_attributes example_env
    example_confirmed example_selection).2 ⟨rfl, by decide, by decide, rfl⟩
  refine ⟨m, a, h1, h2.mpr (Or.inl (by simp [example_confirmed, example_editing])),
    h3.mpr (Or.inl (by simp [example_confirmed, example_editing])),
    h8.mpr ⟨rfl, example_dowel, by simp [example_confirmed, example_editing], rfl⟩, ?_⟩
  intro hmem
  exact absurd (h6.mp hmem) (by simp [example_confirmed, example_editing])

/-! ## Reset of the cutting plane -/

theorem put_connectors_on_cut_plane_frame (env : Env) (g : GLGizmoCut3D) (n : Vec3d) (d : ℚ) :
    (put_connectors_on_cut_plane env g n d).m_plane_center = g.m_plane_center
    ∧ (put_connectors_on_cut_plane env g n d).m_rotation_m = g.m_rotation_m
    ∧ (put_connectors_on_cut_plane env g n d).m_line_beg = g.m_line_beg
    ∧ (put_connectors_on_cut_plane env g n d).m_line_end = g.m_line_end := by
  unfold put_connectors_on_cut_plane
  split_ifs <;> exact ⟨rfl, rfl, rfl, rfl⟩

theorem update_clipper_plane_frame (env : Env) (g : GLGizmoCut3D) (beg normal : Vec3d) :
    (update_clipper_plane env g beg normal).m_plane_center = g.m_plane_center
    ∧ (update_clipper_plane env g beg normal).m_rotation_m = g.m_rotation_m
    ∧ (update_clipper_plane env g beg normal).m_line_beg = g.m_line_beg
    ∧ (update_clipper_plane env g beg normal).m_line_end = g.m_line_end := by
  unfold update_clipper_plane
  exact put_connectors_on_cut_plane_frame env _ _ _

theorem update_clipper_frame (env : Env) (g : GLGizmoCut3D) :
    (update_clipper env g).m_plane_center = g.m_plane_center
    ∧ (update_clipper env g).m_rotation_m = g.m_rotation_m
    ∧ (update_clipper env g).m_line_beg = g.m_line_beg
    ∧ (update_clipper env g).m_line_end = g.m_line_end := by
  unfold update_clipper
  simp only []
  split_ifs
  · exact ⟨rfl, rfl, rfl, rfl⟩
  · exact update_clipper_plane_frame env _ _ _
  · exact update_clipper_plane_frame env _ _ _

theorem squaredNorm_nonneg (v : Vec3d) : 0 ≤ v.squaredNorm := by
  unfold Vec3d.squaredNorm Vec3d.dot
  nlinarith [mul_self_nonneg v.x, mul_self_nonneg v.y, mul_self_nonneg v.z]

theorem sub_eq_of_squaredNorm_le_zero (a b : Vec3d) (h : (a.sub b).squaredNorm ≤ 0) : a = b := by
  unfold Vec3d.squaredNorm Vec3d.dot Vec3d.sub at h
  simp only [] at h
  have hx : a.x - b.x = 0 := by
    nlinarith [mul_self_nonneg (a.x - b.x), mul_self_nonneg (a.y - b.y),
      mul_self_nonneg (a.z - b.z)]
  have hy : a.y - b.y = 0 := by
    nlinarith [mul_self_nonneg (a.x - b.x), mul_self_nonneg (a.y - b.y),
      mul_self_nonneg (a.z - b.z)]
  have hz : a.z - b.z = 0 := by
    nlinarith [mul_self_nonneg (a.x - b.x), mul_self_nonneg (a.y - b.y),
      mul_self_nonneg (a.z - b.z)]
  cases a
  cases b
  simp only [Vec3d.mk.injEq]
  simp only [] at hx hy hz
  exact ⟨by linarith, by linarith, by linarith⟩

theorem squaredNorm_sub_self (a : Vec3d) : (a.sub a).squaredNorm = 0 := by
  simp [Vec3d.squaredNorm, Vec3d.dot, Vec3d.sub]

theorem set_center_pos_bb_center (env : Env) (g : GLGizmoCut3D) :
    (set_center_pos env g g.m_bb_center false).m_plane_center = g.m_bb_center := by
  unfold set_center_pos
  simp only [Bool.false_eq_true, if_false, squaredNorm_sub_self]
  by_cases hbox : (env.transformed_bounding_box g.m_rotation_m g.m_bb_center).max.z > -1 ∧
      (env.transformed_bounding_box g.m_rotation_m g.m_bb_center).min.z < 1
  · simp [hbox]
  · rw [if_neg hbox]
    by_cases hd : 0 < (g.m_bb_center.sub g.m_plane_center).squaredNorm
    · simp [hd]
    · simp only [hd, decide_False, Bool.false_eq_true, if_false]
      exact (sub_eq_of_squaredNorm_le_zero _ _ (not_lt.mp hd)).symm

/-- Claim C9. In every state whose `m_bb_center` is the centre of the current selection bounding
box, after `reset_cut_plane` the rotation `m_rotation_m` is the identity and `m_plane_center` is
`bounding_box().center()`, whatever the previous centre and rotation were: the non-forced
`set_center_pos` cannot reject the bounding-box centre.  Hence `is_cut_plane_init`, the condition
that disables the reset button, holds afterwards. -/
theorem reset_cut_plane_spec (env : Env) (g : GLGizmoCut3D)
    (hbb : g.m_bb_center = env.bounding_box_center) :
    (reset_cut_plane env g).m_rotation_m = Transform3d.Identity
    ∧ (reset_cut_plane env g).m_plane_center = env.bounding_box_center
    ∧ (set_center_pos env g env.bounding_box_center false).m_plane_center
        = env.bounding_box_center
    ∧ is_cut_plane_init env (reset_cut_plane env g) = true := by
  have hset : (set_center_pos env g env.bounding_box_center false).m_plane_center
      = env.bounding_box_center := by
    rw [← hbb]
    exact set_center_pos_bb_center env g
  have hrot : (reset_cut_plane env g).m_rotation_m = Transform3d.Identity := by
    unfold reset_cut_plane
    simp only []
    rw [(update_clipper_frame env _).2.1]
  have hpc : (reset_cut_plane env g).m_plane_center = env.bounding_box_center := by
    unfold reset_cut_plane set_center
    simp only []
    rw [(update_clipper_frame env _).1]
    simp only []
    rw [(update_clipper_frame env _).1]
    exact hset
  refine ⟨hrot, hpc, hset, ?_⟩
  unfold is_cut_plane_init
  rw [hrot, hpc]
  simp

/-- Witness for C9: the tilted example state, whose plane was moved to height 100 and rotated by
a quarter turn about X, is reset to the bounding-box centre `(0, 0, 5)` and to the identity. -/
theorem reset_cut_plane_spec_witness :
    example_tilted.m_plane_center ≠ example_env.bounding_box_center
    ∧ example_tilted.m_rotation_m ≠ Transform3d.Identity
    ∧ (reset_cut_plane example_env example_tilted).m_rotation_m = Transform3d.Identity
    ∧ (reset_cut_plane example_env example_tilted).m_plane_center = ⟨0, 0, 5⟩ := by
  obtain ⟨h1, h2, -⟩ := reset_cut_plane_spec example_env example_tilted rfl
  exact ⟨by decide, by decide, h1, h2⟩

/-! ## Cut by line -/

theorem count_connector_volumes_one (volumes : List ModelVolume) (s : Int) :
    (volumes.filter (fun volume => volume.is_cut_connector) = [] →
        count_connector_volumes volumes 1 s = (1, s))
    ∧ (volumes.filter (fun volume => volume.is_cut_connector) ≠ [] →
        (count_connector_volumes volumes 1 s).1 ≠ 1) := by
  induction volumes with
  | nil => simp [count_connector_volumes]
  | cons v rest ih =>
    by_cases hv : v.is_cut_connector = true
    · simp [count_connector_volumes, hv]
    · have hv2 : v.is_cut_connector = false := by simpa using hv
      simp only [count_connector_volumes, hv2, Bool.false_eq_true, if_false, false_and,
        List.filter_cons_of_neg, not_false_eq_true]
      simpa using ih

theorem count_connector_volumes_zero (volumes : List ModelVolume) :
    ((count_connector_volumes volumes 0 0).1 = 1 ∧ (count_connector_volumes volumes 0 0).2 = 1)
      ↔ (match volumes.filter (fun volume => volume.is_cut_connector) with
          | [volume] => volume.is_model_part
          | _ => false) = true := by
  induction volumes with
  | nil => simp [count_connector_volumes]
  | cons v rest ih =>
    by_cases hv : v.is_cut_connector = true
    · simp only [count_connector_volumes, hv, if_true, true_and, zero_add,
        List.filter_cons_of_pos]
      have hle : ¬ ((1 : Int) > 1) := by decide
      rw [if_neg hle]
      by_cases hrest : rest.filter (fun volume => volume.is_cut_connector) = []
      · rw [(count_connector_volumes_one rest _).1 hrest, hrest]
        by_cases hm : v.is_model_part = true
        · simp [hm]
        · simp [hm]
      · have hne := (count_connector_volumes_one rest
          (if v.is_model_part = true then 1 else 0)).2 hrest
        cases hf : rest.filter (fun volume => volume.is_cut_connector) with
        | nil => exact absurd hf hrest
        | cons w more =>
          simp only [Bool.false_eq_true, iff_false, not_and]
          intro h1
          exact absurd h1 hne
    · have hv2 : v.is_cut_connector = false := by simpa using hv
      simp only [count_connector_volumes, hv2, Bool.false_eq_true, if_false, false_and,
        List.filter_cons_of_neg, not_false_eq_true]
      have hle : ¬ ((0 : Int) > 1) := by decide
      rw [if_neg hle]
      exact ih

theorem is_dowel_object_eq_spec (mo : ModelObject) :
    (if mo.is_cut then
        decide ((count_connector_volumes mo.volumes 0 0).1 = 1
          ∧ (count_connector_volumes mo.volumes 0 0).2 = 1)
      else false) = spec_is_dowel_object mo := by
  unfold spec_is_dowel_object
  by_cases hc : mo.is_cut = true
  · simp only [hc, if_true, Bool.true_and]
    rw [Bool.eq_iff_iff, decide_eq_true_iff]
    exact count_connector_volumes_zero mo.volumes
  · have hc2 : mo.is_cut = false := by simpa using hc
    simp [hc2]

/-- Claim C15. `on_is_activable` returns true exactly when an object is selected
(`object_idx >= 0`), the selection is not the wipe tower, it is a single full instance, layer
editing is not enabled and the object is not a dowel object - a cut object whose volume list
contains exactly one cut-connector volume, that volume being a model part.  In particular a
true result implies that a single full instance is selected. -/
theorem on_is_activable_spec (v : ActivationView) :
    (on_is_activable v = true
      ↔ v.object_idx ≥ 0 ∧ v.is_wipe_tower = false ∧ v.is_single_full_instance = true
        ∧ v.is_layers_editing_enabled = false ∧ spec_is_dowel_object v.mo = false)
    ∧ (on_is_activable v = true → v.is_single_full_instance = true) := by
  have hiff : on_is_activable v = true
      ↔ v.object_idx ≥ 0 ∧ v.is_wipe_tower = false ∧ v.is_single_full_instance = true
        ∧ v.is_layers_editing_enabled = false ∧ spec_is_dowel_object v.mo = false := by
    unfold on_is_activable
    simp only []
    rw [is_dowel_object_eq_spec]
    by_cases hidx : v.object_idx < 0
    · have : ¬ v.object_idx ≥ 0 := by omega
      simp [hidx, this]
    · have hge : v.object_idx ≥ 0 := by omega
      by_cases hw : v.is_wipe_tower = true
      · simp [hw]
      · have hw2 : v.is_wipe_tower = false := by simpa using hw
        simp only [hidx, hw2, Bool.false_eq_true, or_self, if_false, hge, true_and,
          Bool.and_eq_true, Bool.not_eq_true']
        tauto
  exact ⟨hiff, fun h => (hiff.mp h).2.2.1⟩

/-- Witness for C15: a cut-off dowel cannot activate the gizmo, a cut part with two connector
volumes can. -/
theorem on_is_activable_spec_witness :
    on_is_activable example_dowel_view = false ∧ on_is_activable example_part_view = true := by
  refine ⟨?_, ?_⟩
  · rw [Bool.eq_false_iff]
    intro h
    have := ((on_is_activable_spec example_dowel_view).1.mp h).2.2.2.2
    revert this
    decide
  · exact (on_is_activable_spec example_part_view).1.mpr (by decide)

/-! ## Conflicts of connectors -/

end GLGizmoCut
